import Mathlib

/-!
Verification of the edgectl daemon service (pkg/daemon/service.go) and the
client-side remote command session (pkg/client/cli/command_remote.go).

The Go code is shallowly embedded: the daemon's mutable fields become an
explicit `DaemonState` record threaded through each RPC handler, external
observations (the connector socket's existence, the outcome of the network
override installer, stream receive results) become explicit parameters, and
each handler is a pure function from state and environment to response and
new state.
-/

namespace Edgectl

/-- The network override resource, observed only through its interface:
`IsOkay() bool` and `Close() error`.  `closeResult = none` models a `Close`
call returning nil; `some msg` models a `Close` call returning an error with
text `msg`. -/
structure Resource where
  isOkay : Bool
  closeResult : Option String
deriving DecidableEq

/-- The daemon's mutable state relevant to the pause/resume/status state
machine: the `network` override reference (`none` models a nil reference)
and the log sink (`d.p.Logf` appends lines here). -/
structure DaemonState where
  network : Option Resource
  logLines : List String
deriving DecidableEq

/-- Error codes of `rpc.DaemonStatusResponse`; `ok` is the zero value of the
proto enum field (healthy, no error code set). -/
inductive StatusError where
  | ok
  | paused
  | noNetwork
deriving DecidableEq

/-- `rpc.DaemonStatusResponse`, restricted to the `Error` field set by
`Status`. -/
structure StatusResponse where
  error : StatusError
deriving DecidableEq

/-- Error codes of `rpc.PauseResponse`; `ok` is the zero value. -/
inductive PauseErrorCode where
  | ok
  | alreadyPaused
  | connectedToCluster
  | unexpectedPauseError
deriving DecidableEq

/-- `rpc.PauseResponse`: the `Error` code and the `ErrorText` field (empty
string is the proto default). -/
structure PauseResponse where
  error : PauseErrorCode
  errorText : String
deriving DecidableEq

/-- Error codes of `rpc.ResumeResponse`; `ok` is the zero value. -/
inductive ResumeErrorCode where
  | ok
  | notPaused
  | reEstablishing
  | unexpectedResumeError
deriving DecidableEq

/-- `rpc.ResumeResponse`: the `Error` code and the `ErrorText` field. -/
structure ResumeResponse where
  error : ResumeErrorCode
  errorText : String
deriving DecidableEq

/-- `service.Status`: nil network reference reports `Paused`; a non-nil
reference that is not okay reports `NoNetwork`; otherwise the response is the
zero value (healthy).  The Go handler always returns a nil RPC error, so the
embedding is a total function on states. -/
def Status (d : DaemonState) : StatusResponse :=
  match d.network with
  | none => ⟨.paused⟩
  | some r => if ¬r.isOkay then ⟨.noNetwork⟩ else ⟨.ok⟩

/-- `service.Pause`.  The Go `switch` tests `d.network == nil` first, then
`edgectl.SocketExists(edgectl.ConnectorSocketName)` (passed here as the
`connectorSocketExists` observation), and in the default case calls
`d.network.Close()`, logging and reporting `UnexpectedPauseError` on a close
error, and sets `d.network = nil` whether or not `Close` failed. -/
def Pause (connectorSocketExists : Bool) (d : DaemonState) :
    PauseResponse × DaemonState :=
  match d.network with
  | none => (⟨.alreadyPaused, ""⟩, d)
  | some r =>
    if connectorSocketExists then
      (⟨.connectedToCluster, ""⟩, d)
    else
      match r.closeResult with
      | none => (⟨.ok, ""⟩, { d with network := none })
      | some msg =>
        (⟨.unexpectedPauseError, msg⟩,
         { d with network := none,
                  logLines := d.logLines ++ ["pause: " ++ msg] })

/-- Modelled from the spec: `makeNetOverride` is not present under src/ (only
its callers are).  Per the spec it installs a new network override; on
success the daemon owns the new override, on failure it returns the error and
the override reference is left as it was.  The installer's outcome is passed
in as `install`. -/
def makeNetOverride (install : Except String Resource) (d : DaemonState) :
    Except String DaemonState :=
  match install with
  | .ok r => .ok { d with network := some r }
  | .error e => .error e

/-- `service.Resume`: a non-nil okay network reports `NotPaused`; a non-nil
not-okay network reports `ReEstablishing`; with a nil network it calls
`makeNetOverride`, logging and reporting `UnexpectedResumeError` on failure. -/
def Resume (install : Except String Resource) (d : DaemonState) :
    ResumeResponse × DaemonState :=
  match d.network with
  | some r =>
    if r.isOkay then (⟨.notPaused, ""⟩, d)
    else (⟨.reEstablishing, ""⟩, d)
  | none =>
    match makeNetOverride install d with
    | .ok d2 => (⟨.ok, ""⟩, d2)
    | .error e =>
      (⟨.unexpectedResumeError, e⟩,
       { d with logLines := d.logLines ++ ["resume: " ++ e] })

/-- How the `Logger` stream of `Recv` calls ends: `clientClosed` models
`Recv` returning `io.EOF`; `transportFailure e` models any other receive
error. -/
inductive LoggerTerminal where
  | clientClosed
  | transportFailure (e : String)
deriving DecidableEq

/-- One run of the `Logger` client-to-server stream: the sequence of message
texts received before the terminal receive outcome, and the outcome of the
`SendAndClose(&rpc.Empty{})` acknowledgment (`none` models a nil error). -/
structure LoggerStream where
  msgs : List String
  terminal : LoggerTerminal
  ackOutcome : Option String
deriving DecidableEq

/-- Go `fmt` formatting of a format string applied to zero arguments, as
performed by `lg.Printf(msg.Text)`: `%%` prints a single percent sign and a
verb `%c` with no corresponding operand prints `%!c(MISSING)`.  The model
covers format strings in which every percent sign is immediately followed by
a verb character or another percent sign. -/
def printfChars : List Char → List Char
  | [] => []
  | '%' :: '%' :: rest => '%' :: printfChars rest
  | '%' :: c :: rest =>
    '%' :: '!' :: c :: ('(' :: 'M' :: 'I' :: 'S' :: 'S' :: 'I' :: 'N' :: 'G' :: ')' :: printfChars rest)
  | c :: rest => c :: printfChars rest

/-- String version of `printfChars`. -/
def printfNoArgs (s : String) : String :=
  ⟨printfChars s.data⟩

/-- `service.Logger`: loops on `Recv`; each received message's `Text` is
passed to `lg.Printf` (as the format string, so it undergoes `fmt` verb
processing before reaching the sink); on `io.EOF` it returns the result of
`SendAndClose(&rpc.Empty{})`; any other receive error is returned as is.
Result: the error returned to the RPC runtime and the lines appended to the
daemon's log sink. -/
def LoggerRun (s : LoggerStream) : Option String × List String :=
  (match s.terminal with
   | .clientClosed => s.ackOutcome
   | .transportFailure e => some e,
   s.msgs.map printfNoArgs)

/-- Observable outcome of `daemon.Run` relevant to startup: the error it
returns, the names of the workers handed to the supervisor, and whether the
daemon socket was created. -/
structure RunOutcome where
  result : Option String
  workersSupervised : List String
  socketCreated : Bool
deriving DecidableEq

/-- `daemon.Run`: refuses to start unless the effective user id is 0,
returning immediately with no workers supervised and no socket created;
otherwise it supervises the "daemon" and "setup" workers (socket creation
succeeding iff listen-and-chmod does, passed as `listenOk`) and, after the
supervisor finishes, always returns the "edgectl daemon has exited" error. -/
def Run (euid : Nat) (_dns _fallback : String) (listenOk : Bool) : RunOutcome :=
  if euid ≠ 0 then
    ⟨some "edgectl daemon must run as root", [], false⟩
  else
    ⟨some "edgectl daemon has exited", ["daemon", "setup"], listenOk⟩

/-- The `Data` message of `connector.RunCommandResponse` (also used as the
structured result of a terminal frame, matching `r := sr.Data`): an
`ErrorCategory` and a byte payload (bytes as naturals). -/
structure StreamData where
  errorCategory : Nat
  data : List Nat
deriving DecidableEq

/-- A `connector.RunCommandResponse` frame: `data` models the possibly-nil
`sr.Data` pointer, `final` the `sr.Final` flag. -/
structure RunCommandResponse where
  data : Option StreamData
  final : Bool
deriving DecidableEq

/-- Outcome of one `cmdStream.Recv()` call in the output pump:
a frame, `io.EOF`, or another transport error with text `e`. -/
inductive RecvResult where
  | frame (f : RunCommandResponse)
  | transportEof
  | transportErr (e : String)
deriving DecidableEq

/-- The session errors the output pump can return: `resultError` models
`errcat.FromResult` applied to a non-empty structured result, `recvFailure`
the wrapped "failed to read stdout/stderr stream" error, `writeFailure` the
wrapped "failed to write stdout/stderr" error. -/
inductive SessionError where
  | resultError (cat : Nat) (data : List Nat)
  | recvFailure (e : String)
  | writeFailure (e : String)
deriving DecidableEq

/-- Modelled from the spec: `errcat.FromResult` is not present under src/.
Per the spec the session "derives a final error from the structured result
(if present and non-empty)", so an absent or empty result yields no error and
a non-empty result yields an error carrying its category and data.  Composed
here with the pump's own `r != nil` guard, so it takes the optional result. -/
def fromResult : Option StreamData → Option SessionError
  | none => none
  | some r => if r.data = [] then none else some (.resultError r.errorCategory r.data)

/-- One loop iteration's environment in `stdoutAndStderrPump`:
`guardCancel` is the value of `ctx.Err() != nil` at the top of the loop,
`recv` the outcome of `cmdStream.Recv()`, `postCancel` the value of
`ctx.Err() != nil` when consulted after a receive or write error, and
`writeResult` the outcome of the local `w.Write` call for a data frame
(`none` models a nil error). -/
structure PumpStep where
  guardCancel : Bool
  recv : RecvResult
  postCancel : Bool
  writeResult : Option String
deriving DecidableEq

/-- Bytes written so far to the local stdout and stderr sinks. -/
structure PumpState where
  stdoutBytes : List Nat
  stderrBytes : List Nat
deriving DecidableEq

/-- How the output pump ends: `done err` models the function returning `err`
as the session outcome; `fuelOut` marks the model artifact of the step list
running out while the loop is still blocked in `Recv` (a real stream always
ends in a frame, EOF or an error); `nilDeref` marks the Go code dereferencing
a nil `sr.Data` on a non-final frame. -/
inductive PumpOutcome where
  | done (err : Option SessionError)
  | fuelOut
  | nilDeref
deriving DecidableEq

/-- `stdoutAndStderrPump`, one Go loop iteration per `PumpStep`: the loop
runs while `ctx.Err() == nil`; `io.EOF` — or any receive error with the
context already canceled — returns nil; any other receive error returns the
wrapped error; a terminal frame returns `errcat.FromResult` of its non-nil
result (nil otherwise); a non-terminal frame's bytes go to stdout when
`ErrorCategory == 0` and to stderr otherwise, a write error returning nil
when the context is canceled and the wrapped error otherwise. -/
def pumpRun : List PumpStep → PumpState → PumpState × PumpOutcome
  | [], st => (st, .fuelOut)
  | step :: rest, st =>
    if step.guardCancel then
      (st, .done none)
    else
      match step.recv with
      | .transportEof => (st, .done none)
      | .transportErr e =>
        if step.postCancel then (st, .done none)
        else (st, .done (some (.recvFailure e)))
      | .frame f =>
        if f.final then
          (st, .done (fromResult f.data))
        else
          match f.data with
          | none => (st, .nilDeref)
          | some d =>
            let st2 :=
              if d.errorCategory = 0 then
                { st with stdoutBytes := st.stdoutBytes ++ d.data }
              else
                { st with stderrBytes := st.stderrBytes ++ d.data }
            match step.writeResult with
            | none => pumpRun rest st2
            | some e =>
              if step.postCancel then (st2, .done none)
              else (st2, .done (some (.writeFailure e)))

/-- A pump step delivering a non-terminal data frame with chunk `c`, with the
context never canceled and the local write succeeding. -/
def dataStep (c : StreamData) : PumpStep :=
  ⟨false, .frame ⟨some c, false⟩, false, none⟩

/-- A pump step delivering the terminal frame with structured result `res`,
with the context never canceled. -/
def finalStep (res : Option StreamData) : PumpStep :=
  ⟨false, .frame ⟨res, true⟩, false, none⟩

/-- The bytes the pump routes to stdout from a chunk sequence: the data of
the chunks whose `ErrorCategory` is 0, concatenated in arrival order. -/
def stdoutOf : List StreamData → List Nat
  | [] => []
  | c :: cs => (if c.errorCategory = 0 then c.data else []) ++ stdoutOf cs

/-- The bytes the pump routes to stderr from a chunk sequence: the data of
the chunks whose `ErrorCategory` is nonzero, concatenated in arrival order. -/
def stderrOf : List StreamData → List Nat
  | [] => []
  | c :: cs => (if c.errorCategory = 0 then [] else c.data) ++ stderrOf cs

/-- What `interruptPump`'s initial `select` observes first: the context
already done, a nil signal (closed channel), or a forwarded termination
signal. -/
inductive InterruptTrigger where
  | ctxDone
  | nilSignal
  | termSignal
deriving DecidableEq

/-- Environment of one `interruptPump` run: what the initial `select`
observes, the outcome of sending the `SoftCancel` frame (`none` models a nil
error), and whether `ctx.Done()` fires before the 5-second timer in the
second `select` (that is, whether the session reached a terminal state within
the grace period). -/
structure InterruptEnv where
  trigger : InterruptTrigger
  sendOutcome : Option String
  ctxDoneWithinGrace : Bool
deriving DecidableEq

/-- Observable outcome of `interruptPump`: how many `SoftCancel` frame sends
it performed on the stream, and whether it invoked the local `cancel()`. -/
structure InterruptResult where
  softCancelSends : Nat
  hardCancelInvoked : Bool
deriving DecidableEq

/-- The grace period of `interruptPump`'s hard-cancel timer, in seconds
(`time.After(5 * time.Second)`). -/
def softCancelGraceSeconds : Nat := 5

/-- `interruptPump`: returns at once when the context is done first or the
signal channel yields nil; on a forwarded termination signal it sends one
`SoftCancel` frame, returns if the send failed, and otherwise waits on the
second `select`, invoking `cancel()` iff the timer fires before the context
is done. -/
def interruptPump (env : InterruptEnv) : InterruptResult :=
  match env.trigger with
  | .ctxDone => ⟨0, false⟩
  | .nilSignal => ⟨0, false⟩
  | .termSignal =>
    match env.sendOutcome with
    | some _ => ⟨1, false⟩
    | none => if env.ctxDoneWithinGrace then ⟨1, false⟩ else ⟨1, true⟩

/-- Claim C2: for every daemon state, `Status` returns `Paused` iff the
override reference is nil, `NoNetwork` iff the override is non-nil and its
`IsOkay` reports false, and the healthy zero value otherwise; the result is a
pure function of the current override reference — nothing is cached. -/
theorem C2_status_characterization (d : DaemonState) :
    ((Status d).error = .paused ↔ d.network = none)
    ∧ ((Status d).error = .noNetwork ↔ ∃ r, d.network = some r ∧ r.isOkay = false)
    ∧ ((Status d).error = .ok ↔ ∃ r, d.network = some r ∧ r.isOkay = true) := by
  obtain ⟨net, logs⟩ := d
  cases net with
  | none => simp [Status]
  | some r =>
    cases hr : r.isOkay <;> simp [Status, hr]

/-- Claim C10: whenever the override reference is nil, `Pause` returns
`AlreadyPaused` — even when the downstream connector socket exists, because
the nil-override case of the `switch` precedes the socket test — and leaves
the daemon state unchanged. -/
theorem C10_pause_nil_already_paused (sock : Bool) (d : DaemonState)
    (h : d.network = none) :
    (Pause sock d).1 = ⟨.alreadyPaused, ""⟩ ∧ (Pause sock d).2 = d := by
  obtain ⟨net, logs⟩ := d
  simp only [DaemonState.network] at h
  subst h
  simp [Pause]

/-- Witness for C10: the concrete state with a nil override and the
connector socket present. -/
theorem C10_pause_nil_already_paused_witness :
    (Pause true ⟨none, []⟩).1 = ⟨.alreadyPaused, ""⟩
    ∧ (Pause true ⟨none, []⟩).2 = ⟨none, []⟩ :=
  C10_pause_nil_already_paused true ⟨none, []⟩ rfl

/-- Counterexample to claim C1 as stated: with the downstream connector
socket present but a nil override reference, `Pause` returns `AlreadyPaused`,
not `ConnectedToCluster`. -/
theorem C1_counterexample :
    (Pause true ⟨none, []⟩).1.error = .alreadyPaused
    ∧ PauseErrorCode.alreadyPaused ≠ PauseErrorCode.connectedToCluster := by
  constructor
  · rfl
  · decide

/-- Claim C1 (amended): whenever the downstream connector socket exists and
the override reference is non-nil, `Pause` returns `ConnectedToCluster` and
leaves the daemon state — override reference and resource included —
unchanged. -/
theorem C1_pause_connected_to_cluster (d : DaemonState) (r : Resource)
    (h : d.network = some r) :
    (Pause true d).1 = ⟨.connectedToCluster, ""⟩ ∧ (Pause true d).2 = d := by
  obtain ⟨net, logs⟩ := d
  simp only [DaemonState.network] at h
  subst h
  simp [Pause]

/-- Witness for C1: a concrete state owning an okay override while the
connector socket exists. -/
theorem C1_pause_connected_to_cluster_witness :
    (Pause true ⟨some ⟨true, none⟩, []⟩).1 = ⟨.connectedToCluster, ""⟩
    ∧ (Pause true ⟨some ⟨true, none⟩, []⟩).2 = ⟨some ⟨true, none⟩, []⟩ :=
  C1_pause_connected_to_cluster ⟨some ⟨true, none⟩, []⟩ ⟨true, none⟩ rfl

/-- Claim C3: with a non-nil override and no connector socket, `Pause` calls
`Close` on the override; on a close error it returns `UnexpectedPauseError`
carrying the error text and appends a "pause:" line to the log; whether or
not `Close` failed, the override reference is cleared to nil. -/
theorem C3_pause_close_policy (d : DaemonState) (r : Resource)
    (h : d.network = some r) :
    (Pause false d).2.network = none
    ∧ (r.closeResult = none →
        (Pause false d).1 = ⟨.ok, ""⟩ ∧ (Pause false d).2.logLines = d.logLines)
    ∧ (∀ msg, r.closeResult = some msg →
        (Pause false d).1 = ⟨.unexpectedPauseError, msg⟩
        ∧ (Pause false d).2.logLines = d.logLines ++ ["pause: " ++ msg]) := by
  obtain ⟨net, logs⟩ := d
  simp only [DaemonState.network] at h
  subst h
  obtain ⟨ok, cr⟩ := r
  cases cr with
  | none => simp [Pause]
  | some msg => simp [Pause]

/-- Witness for C3: a concrete state whose override's `Close` fails with
"device busy". -/
theorem C3_pause_close_policy_witness :
    (Pause false ⟨some ⟨true, some "device busy"⟩, ["x"]⟩).2.network = none
    ∧ (Pause false ⟨some ⟨true, some "device busy"⟩, ["x"]⟩).1
        = ⟨.unexpectedPauseError, "device busy"⟩
    ∧ (Pause false ⟨some ⟨true, some "device busy"⟩, ["x"]⟩).2.logLines
        = ["x", "pause: " ++ "device busy"] := by
  refine ⟨(C3_pause_close_policy _ ⟨true, some "device busy"⟩ rfl).1, ?_, ?_⟩
  · exact ((C3_pause_close_policy _ ⟨true, some "device busy"⟩ rfl).2.2 "device busy" rfl).1
  · exact ((C3_pause_close_policy _ ⟨true, some "device busy"⟩ rfl).2.2 "device busy" rfl).2

/-- Claim C4: `Resume` behaves by exactly three cases — a non-nil okay
override yields `NotPaused` with the state unchanged; a non-nil not-okay
override yields `ReEstablishing` with the state unchanged (no replacement);
with a nil override it attempts installation, and on failure returns
`UnexpectedResumeError` carrying the error text while the override reference
remains nil. -/
theorem C4_resume_cases (install : Except String Resource) (d : DaemonState) :
    (∀ r, d.network = some r → r.isOkay = true →
        (Resume install d).1 = ⟨.notPaused, ""⟩ ∧ (Resume install d).2 = d)
    ∧ (∀ r, d.network = some r → r.isOkay = false →
        (Resume install d).1 = ⟨.reEstablishing, ""⟩ ∧ (Resume install d).2 = d)
    ∧ (∀ e, d.network = none → install = .error e →
        (Resume install d).1 = ⟨.unexpectedResumeError, e⟩
        ∧ (Resume install d).2.network = none) := by
  obtain ⟨net, logs⟩ := d
  refine ⟨?_, ?_, ?_⟩
  · rintro r hr hok
    simp only [DaemonState.network] at hr
    subst hr
    simp [Resume, hok]
  · rintro r hr hok
    simp only [DaemonState.network] at hr
    subst hr
    simp [Resume, hok]
  · rintro e hn hi
    simp only [DaemonState.network] at hn
    subst hn
    subst hi
    simp [Resume, makeNetOverride]

/-- Witness for C4: the install-failure branch at a concrete paused state. -/
theorem C4_resume_cases_witness :
    (Resume (.error "no permission") ⟨none, []⟩).1
      = ⟨.unexpectedResumeError, "no permission"⟩
    ∧ (Resume (.error "no permission") ⟨none, []⟩).2.network = none :=
  (C4_resume_cases (.error "no permission") ⟨none, []⟩).2.2 "no permission" rfl rfl

/-- Claim C9: `Run` invoked with a nonzero effective user id returns the
root-required error immediately: no workers are handed to the supervisor and
no socket is created. -/
theorem C9_run_requires_root (euid : Nat) (dns fallback : String)
    (listenOk : Bool) (h : euid ≠ 0) :
    Run euid dns fallback listenOk
      = ⟨some "edgectl daemon must run as root", [], false⟩ := by
  simp [Run, h]

/-- Witness for C9: a concrete unprivileged invocation. -/
theorem C9_run_requires_root_witness :
    Run 1000 "8.8.8.8" "" true
      = ⟨some "edgectl daemon must run as root", [], false⟩ :=
  C9_run_requires_root 1000 "8.8.8.8" "" true (by decide)

/-- Counterexample to claim C5 as stated: (1) an end-of-stream received while
the local context is NOT canceled is still treated as normal termination with
no error, refuting the "exactly when the context has already been canceled"
biconditional; (2) a non-EOF transport error received while the context IS
canceled is suppressed, not reported as the session's error. -/
theorem C5_counterexample :
    (pumpRun [⟨false, .transportEof, false, none⟩] ⟨[], []⟩).2 = .done none
    ∧ (pumpRun [⟨false, .transportErr "connection reset", true, none⟩] ⟨[], []⟩).2
        = .done none
    ∧ PumpOutcome.done none ≠ .done (some (.recvFailure "connection reset")) := by
  refine ⟨rfl, rfl, ?_⟩
  decide

/-- Claim C5 (amended): a transport-level end-of-stream before any terminal
frame is always treated as normal termination with no error, whether or not
the context is canceled; any other transport receive error is reported as the
session's error unless the local context has already been canceled at that
point, in which case it too is treated as normal termination with no error. -/
theorem C5_transport_error_handling (s : PumpStep) (rest : List PumpStep)
    (st : PumpState) (hg : s.guardCancel = false) :
    (s.recv = .transportEof → pumpRun (s :: rest) st = (st, .done none))
    ∧ (∀ e, s.recv = .transportErr e →
        pumpRun (s :: rest) st
          = (st, .done (if s.postCancel then none
                        else some (.recvFailure e)))) := by
  obtain ⟨g, rv, pc, wr⟩ := s
  simp only [PumpStep.guardCancel] at hg
  subst hg
  constructor
  · intro h
    simp only [PumpStep.recv] at h
    subst h
    simp [pumpRun]
  · intro e h
    simp only [PumpStep.recv] at h
    subst h
    cases pc <;> simp [pumpRun]

/-- Witness for C5: end-of-stream with the context never canceled yields a
nil session outcome. -/
theorem C5_transport_error_handling_witness :
    pumpRun [⟨false, .transportEof, false, none⟩] ⟨[], []⟩ = (⟨[], []⟩, .done none) :=
  (C5_transport_error_handling ⟨false, .transportEof, false, none⟩ [] ⟨[], []⟩ rfl).1 rfl

/-- Claim C6: on a forwarded termination signal observed while the session is
running, `interruptPump` performs exactly one `SoftCancel` send; if the send
succeeded and the session does not reach a terminal state within the 5-second
grace period, it invokes the local `cancel()`; and a canceled context
terminates the output pump (whose result is the session's result) with a nil
outcome at its next loop guard. -/
theorem C6_soft_cancel_escalation (env : InterruptEnv)
    (h : env.trigger = .termSignal) :
    (interruptPump env).softCancelSends = 1
    ∧ (env.sendOutcome = none → env.ctxDoneWithinGrace = false →
        (interruptPump env).hardCancelInvoked = true)
    ∧ softCancelGraceSeconds = 5
    ∧ (∀ (s : PumpStep) (rest : List PumpStep) (st : PumpState),
        s.guardCancel = true → (pumpRun (s :: rest) st).2 = .done none) := by
  obtain ⟨tr, so, dg⟩ := env
  simp only [InterruptTrigger] at h
  subst h
  refine ⟨?_, ?_, rfl, ?_⟩
  · cases so with
    | none => cases dg <;> simp [interruptPump]
    | some e => simp [interruptPump]
  · intro hso hdg
    simp only at hso hdg
    subst hso
    subst hdg
    simp [interruptPump]
  · intro s rest st hs
    obtain ⟨g, rv, pc, wr⟩ := s
    simp only [PumpStep.guardCancel] at hs
    subst hs
    simp [pumpRun]

/-- Witness for C6: a termination signal with a successful send and no
terminal state within the grace period. -/
theorem C6_soft_cancel_escalation_witness :
    (interruptPump ⟨.termSignal, none, false⟩).softCancelSends = 1
    ∧ (interruptPump ⟨.termSignal, none, false⟩).hardCancelInvoked = true := by
  refine ⟨(C6_soft_cancel_escalation ⟨.termSignal, none, false⟩ rfl).1, ?_⟩
  exact (C6_soft_cancel_escalation ⟨.termSignal, none, false⟩ rfl).2.1 rfl rfl

/-- Chunks routed in arrival order: running the pump over data steps prepends
the routed bytes to whatever the rest of the run produces. -/
theorem pumpRun_dataSteps (cs : List StreamData) (rest : List PumpStep)
    (st : PumpState) :
    pumpRun (cs.map dataStep ++ rest) st
      = pumpRun rest ⟨st.stdoutBytes ++ stdoutOf cs, st.stderrBytes ++ stderrOf cs⟩ := by
  induction cs generalizing st with
  | nil => simp [stdoutOf, stderrOf]
  | cons c cs ih =>
    by_cases hc : c.errorCategory = 0 <;>
      simp [pumpRun, dataStep, stdoutOf, stderrOf, hc, ih, List.append_assoc]

/-- Claim C7: over any sequence of data frames followed by a terminal frame
(and any frames after it), with the context never canceled and all local
writes succeeding, the pump writes each non-terminal chunk's bytes to stdout
when `ErrorCategory = 0` and to stderr otherwise, in arrival order; it
returns `errcat.FromResult` of the terminal frame's result — an error for a
non-empty result, nil for an absent or empty one — and reads no frame after
the terminal one (the outcome is independent of `extra`). -/
theorem C7_output_pump_routing (cs : List StreamData) (res : Option StreamData)
    (extra : List PumpStep) :
    pumpRun (cs.map dataStep ++ (finalStep res :: extra)) ⟨[], []⟩
      = (⟨stdoutOf cs, stderrOf cs⟩, .done (fromResult res)) := by
  rw [pumpRun_dataSteps]
  simp [pumpRun, finalStep]

/-- Claim C8: the code passes each received log line to `Printf` as a format
string, so a line containing a conversion verb is not appended verbatim: on
the single line "50%d" followed by the client closing the stream, `Logger`
returns no error but the sink receives "50%!d(MISSING)", which differs from
the received line. -/
theorem C8_logger_not_verbatim :
    LoggerRun ⟨["50%d"], .clientClosed, none⟩ = (none, ["50%!d(MISSING)"])
    ∧ ("50%!d(MISSING)" : String) ≠ "50%d" := by
  constructor
  · rfl
  · decide

end Edgectl
